import Mathlib

/-!
Verification of the DevEvents data-model and validation layer.

The definitions below are shallow embeddings of the validation logic of the
repository: the slug derivation chain and time regex replicated in
`src/database/__tests__/event.model.test.ts`, the Booking schema of
`src/database/booking.model.ts`, and the MongoDB connection manager of
`src/unnamed/part_000` (the `mongodb` module).  Strings are modelled as
`String`/`List Char`; JavaScript regex character classes are modelled by
decidable predicates on `Char` via code points.
-/

/-- Structured validation errors of the spec's error taxonomy (§7).  The
mongoose error messages of the source map onto these constructors:
"... is required" ↦ `MissingField`, "Invalid email format" ↦
`InvalidFormat "email"`, "... must contain at least one item" ↦
`EmptyCollection`, "Referenced event does not exist" ↦
`DanglingReference "eventId"`. -/
inductive ValidationError where
  | MissingField (field : String)
  | InvalidFormat (field : String)
  | InvalidEnum (field : String)
  | EmptyCollection (field : String)
  | DanglingReference (field : String)
deriving DecidableEq, Repr

/-- JavaScript `\s` character class (ECMAScript WhiteSpace ∪ LineTerminator),
by code point. -/
def jsIsSpace (c : Char) : Bool :=
  let n := c.toNat
  n == 9 || n == 10 || n == 11 || n == 12 || n == 13 || n == 32 ||
  n == 160 || n == 5760 || (8192 ≤ n && n ≤ 8202) || n == 8232 ||
  n == 8233 || n == 8239 || n == 8287 || n == 12288 || n == 65279

/-- JavaScript `\w` character class without the `u` flag: `[A-Za-z0-9_]`
(ASCII only — accented letters are NOT word characters). -/
def jsIsWordChar (c : Char) : Bool :=
  let n := c.toNat
  (48 ≤ n && n ≤ 57) || (65 ≤ n && n ≤ 90) || (97 ≤ n && n ≤ 122) || n == 95

/-- JavaScript `String.prototype.toLowerCase` restricted to the Basic Latin
and Latin-1 Supplement ranges (the default Unicode simple lowercase mapping
there): `A`–`Z` and `À`–`Þ` except `×` map down by 32, everything else is
fixed.  This covers every character appearing in the repository's titles. -/
def jsToLower (c : Char) : Char :=
  let n := c.toNat
  if 65 ≤ n ∧ n ≤ 90 then Char.ofNat (n + 32)
  else if 192 ≤ n ∧ n ≤ 222 ∧ n ≠ 215 then Char.ofNat (n + 32)
  else c

/-- JavaScript `String.prototype.trim`: drop leading and trailing
whitespace. -/
def jsTrim (l : List Char) : List Char :=
  ((l.dropWhile jsIsSpace).reverse.dropWhile jsIsSpace).reverse

/-- Replace every maximal run of characters satisfying `p` by the single
character `r`; the Boolean argument records whether the previous character
was inside a run.  `collapseRuns jsIsSpace '-' l false` is
`replace(/\s+/g, '-')` and `collapseRuns (· == '-') '-' l false` is
`replace(/[-]+/g, '-')`. -/
def collapseRuns (p : Char → Bool) (r : Char) : List Char → Bool → List Char
  | [], _ => []
  | c :: cs, inRun =>
    if p c then
      if inRun then collapseRuns p r cs true
      else r :: collapseRuns p r cs true
    else
      c :: collapseRuns p r cs false

/-- Drop the characters satisfying `p` from both ends of the list;
`stripEnds (· == '-')` is `replace(/^-+|-+$/g, '')`. -/
def stripEnds (p : Char → Bool) (l : List Char) : List Char :=
  ((l.dropWhile p).reverse.dropWhile p).reverse

/-- Character class kept by step 3 of the slug chain: the complement of the
removal class `[^\w\s-]`. -/
def slugKeep (c : Char) : Bool :=
  jsIsWordChar c || jsIsSpace c || c == '-'

/-- Slug derivation chain of the Event pre-save hook, replicated in
`src/database/__tests__/event.model.test.ts` lines 211–217:
`title.toLowerCase().trim().replace(/[^\w\s-]/g, '').replace(/\s+/g, '-')
.replace(/[-]+/g, '-').replace(/^-+|-+$/g, '')`. -/
def slugifyChars (l : List Char) : List Char :=
  let s1 := l.map jsToLower
  let s2 := jsTrim s1
  let s3 := s2.filter slugKeep
  let s4 := collapseRuns jsIsSpace '-' s3 false
  let s5 := collapseRuns (fun c => c == '-') '-' s4 false
  stripEnds (fun c => c == '-') s5

/-- Slug derivation on `String`. -/
def slugify (t : String) : String :=
  String.mk (slugifyChars t.toList)

/-- C1: the slug derivation chain satisfies the spec's reference equations:
`slugify "AWS re:Invent 2025" = "aws-reinvent-2025"`,
`slugify "---Event Title---" = "event-title"`, and a title consisting only
of removed characters yields the empty slug, `slugify "!@#$%^&*()" = ""`. -/
theorem C1_slugify_reference_equations :
    slugify "AWS re:Invent 2025" = "aws-reinvent-2025" ∧
    slugify "---Event Title---" = "event-title" ∧
    slugify "!@#$%^&*()" = "" := by
  refine ⟨?_, ?_, ?_⟩ <;> decide

/-- C5 counterexample: the repository's own unicode test (event.model.test.ts
lines 281–292) expects `slugify "Événement Spécial 2025" =
"vnement-spcial-2025"`: the accented letter `é` is removed by step 3, not
preserved, because `\w` without the `u` flag matches ASCII word characters
only.  This refutes the claim that every Unicode word character of the title
is preserved in the derived slug. -/
theorem C5_counterexample :
    slugify "Événement Spécial 2025" = "vnement-spcial-2025" ∧
    slugKeep 'é' = false ∧
    'é' ∉ (slugify "Événement Spécial 2025").toList := by
  refine ⟨?_, ?_, ?_⟩ <;> decide

/-- C5 amended: step 3 of slug derivation removes exactly the characters that
are not ASCII word characters (`[A-Za-z0-9_]`), whitespace, or hyphens; a
character survives the filter iff it occurs in the input and lies in the kept
class.  Accented letters such as `é` are removed, giving
`"vnement-spcial-2025"` on the unicode test title. -/
theorem C5_amended_step3_ascii_filter :
    (∀ (c : Char) (l : List Char),
      c ∈ l.filter slugKeep ↔ c ∈ l ∧ slugKeep c = true) ∧
    slugify "Événement Spécial 2025" = "vnement-spcial-2025" := by
  constructor
  · intro c l
    exact List.mem_filter
  · decide

/-- Digit class `[0-9]` by code point (48–57). -/
def isDigitCh (c : Char) : Bool :=
  48 ≤ c.toNat && c.toNat ≤ 57

/-- Class `[0-1]` by code point (48–49). -/
def isZeroOne (c : Char) : Bool :=
  48 ≤ c.toNat && c.toNat ≤ 49

/-- Class `[0-3]` by code point (48–51). -/
def isZeroToThree (c : Char) : Bool :=
  48 ≤ c.toNat && c.toNat ≤ 51

/-- Hour alternation `([0-1]?[0-9]|2[0-3])` matched against exactly two
characters; code point 50 is the literal `2`. -/
def hourPair (h1 h2 : Char) : Bool :=
  (isZeroOne h1 && isDigitCh h2) || (h1.toNat == 50 && isZeroToThree h2)

/-- Minute part `[0-5][0-9]`; code points 48–53 are `0`–`5`. -/
def minutePair (m1 m2 : Char) : Bool :=
  (48 ≤ m1.toNat && m1.toNat ≤ 53) && isDigitCh m2

/-- Anchored match of the Event time regex
`^([0-1]?[0-9]|2[0-3]):[0-5][0-9]$` on a character list: a match is either a
one-digit hour (4 characters, the `[0-1]?` branch absent) or a two-digit hour
(5 characters). -/
def timeAux : List Char → Bool
  | [h, c, m1, m2] => c == ':' && isDigitCh h && minutePair m1 m2
  | [h1, h2, c, m1, m2] => c == ':' && hourPair h1 h2 && minutePair m1 m2
  | _ => false

/-- Event time validator `timeRegex.test` replicated in
event.model.test.ts lines 392, 410 and 424. -/
def timeRegexAccepts (s : String) : Bool :=
  timeAux s.toList

/-- C8: the Event time validator rejects `"24:00"` and accepts `"23:59"`
and `"00:00"`. -/
theorem C8_time_boundaries :
    timeRegexAccepts "24:00" = false ∧
    timeRegexAccepts "23:59" = true ∧
    timeRegexAccepts "00:00" = true := by
  refine ⟨?_, ?_, ?_⟩ <;> decide

/-- Shape description of the accepted time language, written from the claim:
a one-digit hour followed by a colon and exactly two minute digits, or a
two-digit hour (`0x`/`1x` with any second digit, or `2x` with second digit
`0`–`3`) followed by a colon and exactly two minute digits. -/
def timeSpecLang (s : String) : Prop :=
  (∃ h m1 m2, s.toList = [h, ':', m1, m2] ∧
    isDigitCh h = true ∧ minutePair m1 m2 = true) ∨
  (∃ h1 h2 m1 m2, s.toList = [h1, h2, ':', m1, m2] ∧
    hourPair h1 h2 = true ∧ minutePair m1 m2 = true)

/-- Two-digit `HH:MM` 24-hour clock shape, the stricter language the claim
compares against: exactly two hour digits with numeric value at most 23, a
colon, and two minute digits with numeric value at most 59. -/
def strictHHMM (s : String) : Bool :=
  match s.toList with
  | [h1, h2, c, m1, m2] =>
    c == ':' && isDigitCh h1 && isDigitCh h2 && isDigitCh m1 && isDigitCh m2 &&
    decide (10 * (h1.toNat - 48) + (h2.toNat - 48) ≤ 23) &&
    decide (10 * (m1.toNat - 48) + (m2.toNat - 48) ≤ 59)
  | _ => false

/-- C10: the set of strings the Event time validator accepts is exactly the
language of `^([0-1]?[0-9]|2[0-3]):[0-5][0-9]$`: it contains every two-digit
`HH:MM` 24-hour string, additionally accepts single-digit-hour strings such
as `"8:45"` (which is not of the two-digit `HH:MM` shape), and still requires
exactly two minute digits, rejecting `"9:0"`. -/
theorem C10_time_language_exact :
    (∀ s : String, timeRegexAccepts s = true ↔ timeSpecLang s) ∧
    (∀ s : String, strictHHMM s = true → timeRegexAccepts s = true) ∧
    timeRegexAccepts "8:45" = true ∧
    strictHHMM "8:45" = false ∧
    timeRegexAccepts "9:0" = false := by
  refine ⟨?_, ?_, by decide, by decide, by decide⟩
  · intro s
    unfold timeRegexAccepts timeSpecLang
    rcases l : s.toList with _ | ⟨a, _ | ⟨b, _ | ⟨c, _ | ⟨d, _ | ⟨e, rest⟩⟩⟩⟩⟩ <;>
      simp [timeAux, Bool.and_eq_true, beq_iff_eq]
    · constructor
      · rintro ⟨⟨hb, ha⟩, hm⟩
        exact ⟨a, c, d, ⟨rfl, hb, rfl, rfl⟩, ha, hm⟩
      · rintro ⟨h, m1, m2, ⟨rfl, hb, rfl, rfl⟩, ha, hm⟩
        exact ⟨⟨hb, ha⟩, hm⟩
    · cases rest with
      | nil =>
        simp [timeAux, Bool.and_eq_true, beq_iff_eq]
        constructor
        · rintro ⟨⟨hc, hp⟩, hm⟩
          exact ⟨a, b, d, e, ⟨rfl, rfl, hc, rfl, rfl⟩, hp, hm⟩
        · rintro ⟨h1, h2, m1, m2, ⟨rfl, rfl, hc, rfl, rfl⟩, hp, hm⟩
          exact ⟨⟨hc, hp⟩, hm⟩
      | cons f rest2 =>
        simp [timeAux]
  · intro s h
    unfold strictHHMM at h
    unfold timeRegexAccepts
    rcases l : s.toList with _ | ⟨a, _ | ⟨b, _ | ⟨c, _ | ⟨d, _ | ⟨e, rest⟩⟩⟩⟩⟩ <;>
      rw [l] at h <;> simp [timeAux] at h ⊢
    cases rest with
    | nil =>
      simp [Bool.and_eq_true, beq_iff_eq, isDigitCh, decide_eq_true_eq] at h
      show (c == ':' && hourPair a b && minutePair d e) = true
      obtain ⟨⟨⟨⟨⟨⟨hc, ha⟩, hb⟩, hd⟩, he⟩, hh⟩, hm⟩ := h
      simp [hourPair, minutePair, isZeroOne, isDigitCh, isZeroToThree,
        Bool.and_eq_true, Bool.or_eq_true, beq_iff_eq, decide_eq_true_eq]
      refine ⟨⟨hc, ?_⟩, ?_⟩ <;> omega
    | cons f rest2 =>
      simp at h

/-- Witness for C10: the two-digit string `"08:45"` lies in the strict
`HH:MM` language, and the containment part of the theorem places it in the
accepted set of the validator. -/
theorem C10_time_language_exact_witness :
    strictHHMM "08:45" = true ∧ timeRegexAccepts "08:45" = true :=
  ⟨by decide, C10_time_language_exact.2.1 "08:45" (by decide)⟩

/-- Class `[^\s@]` of the email regex: neither whitespace nor `@`
(code point 64). -/
def emailAtomChar (c : Char) : Bool :=
  !jsIsSpace c && c.toNat != 64

/-- Anchored match of the Booking email regex `^[^\s@]+@[^\s@]+\.[^\s@]+$`
(booking.model.ts line 26).  Since the class `[^\s@]` excludes `@`, a match
splits the string at its first `@`: a nonempty local part of `[^\s@]`
characters, the `@`, and a domain of `[^\s@]` characters containing a dot
that is neither its first nor its last character (the `[^\s@]+` before and
after the literal `\.` must be nonempty). -/
def emailAux (l : List Char) : Bool :=
  match l.span (fun c => c.toNat != 64) with
  | (loc, rest) =>
    match rest with
    | '@' :: dom =>
      !loc.isEmpty && loc.all emailAtomChar && dom.all emailAtomChar &&
      (dom.drop 1).dropLast.contains '.'
    | _ => false

/-- Booking email validator `emailRegex.test` on the stored value. -/
def emailAccepts (s : String) : Bool :=
  emailAux s.toList

/-- Mongoose setters on the Booking email path, `trim: true` and
`lowercase: true` (booking.model.ts lines 21–22), applied before
validation. -/
def normalizeEmail (e : String) : String :=
  String.mk ((jsTrim e.toList).map jsToLower)

/-- Email stage of Booking validation.  Mongoose prepends the `required`
validator to the path's validator chain and reports the first failing
validator per path, so an empty stored string fails with
"Email is required" (`MissingField "email"`) and the custom format
validator ("Invalid email format", `InvalidFormat "email"`) only decides
nonempty values. -/
def prepareBookingEmail (e : String) : Except ValidationError Unit :=
  let n := normalizeEmail e
  if n = "" then .error (.MissingField "email")
  else if emailAccepts n then .ok () else .error (.InvalidFormat "email")

/-- C3 counterexample: the candidate with email `""` normalizes to `""`,
which does not match the pattern, yet `prepare` fails with
`MissingField "email"` (mongoose's required check precedes the format
validator) and not with `InvalidFormat "email"` — refuting the claimed
"fails with InvalidFormat iff the normalized email does not match". -/
theorem C3_counterexample :
    normalizeEmail "" = "" ∧
    emailAccepts (normalizeEmail "") = false ∧
    prepareBookingEmail "" = .error (.MissingField "email") ∧
    ¬ prepareBookingEmail "" = .error (.InvalidFormat "email") := by
  refine ⟨rfl, rfl, rfl, ?_⟩
  intro h
  have h2 : (Except.error (ValidationError.MissingField "email") :
      Except ValidationError Unit) =
      Except.error (ValidationError.InvalidFormat "email") := h
  simp at h2

/-- C3 amended: for every Booking candidate, the email is trimmed and
lowercased, and `prepare` fails with `InvalidFormat "email"` iff the
normalized email is nonempty and does not match
`^[^\s@]+@[^\s@]+\.[^\s@]+$` (an empty normalized email fails the required
check with `MissingField "email"` instead); in particular
`"user@@example.com"` fails with `InvalidFormat "email"`. -/
theorem C3_amended_email_format :
    (∀ e : String,
      prepareBookingEmail e = .error (.InvalidFormat "email") ↔
        (normalizeEmail e ≠ "" ∧ emailAccepts (normalizeEmail e) = false)) ∧
    prepareBookingEmail "user@@example.com" = .error (.InvalidFormat "email") := by
  constructor
  · intro e
    unfold prepareBookingEmail
    by_cases h1 : normalizeEmail e = ""
    · simp [h1]
    · by_cases h2 : emailAccepts (normalizeEmail e) <;> simp [h1, h2]
  · rfl

/-- Pre-save hook of the Booking schema (booking.model.ts lines 39–52): only
when `eventId` is newly set or changed (`this.isModified('eventId')`, always
true on first creation) is the referenced Event looked up by id; a missing
Event raises "Referenced event does not exist" (`DanglingReference
"eventId"`).  `store` is the list of existing Event ids; the second
component counts the store lookups the hook performs. -/
def bookingPreSave (store : List String) (eventIdModified : Bool)
    (eventId : String) : Except ValidationError Unit × Nat :=
  if eventIdModified then
    if store.contains eventId then (.ok (), 1)
    else (.error (.DanglingReference "eventId"), 1)
  else (.ok (), 0)

/-- C4: the Booking pre-save hook fails with `DanglingReference "eventId"`
iff `eventId` was newly set or changed and no Event with that id exists in
the store; it performs exactly one existence lookup when `eventId` changed
and none when it is unchanged. -/
theorem C4_dangling_reference :
    ∀ (store : List String) (m : Bool) (eid : String),
      ((bookingPreSave store m eid).1 =
          .error (.DanglingReference "eventId") ↔
        m = true ∧ store.contains eid = false) ∧
      (bookingPreSave store m eid).2 = (if m then 1 else 0) := by
  intro store m eid
  cases m <;> by_cases h : eid ∈ store <;>
    simp [bookingPreSave, h]

/-- Raw JavaScript value supplied for an array-of-strings field, as
exercised by the tests: an array, a non-array string, `null`, or
`undefined`. -/
inductive JsInput where
  | arr (items : List String)
  | str (s : String)
  | nullv
  | undef
deriving DecidableEq, Repr

/-- Minimum-items validator function on `agenda` and `tags` as the tests
invoke it directly (event.model.test.ts lines 128–175): true exactly on
arrays with at least one element; the empty array, non-array values, `null`
and `undefined` are rejected.  Inside the full mongoose pipeline this
function only ever sees the stored (cast/defaulted) value. -/
def minItemsValidator : JsInput → Bool
  | .arr items => 0 < items.length
  | _ => false

/-- Value stored at a mongoose `Array` path before validation: a non-array
scalar is cast to a singleton array (`castNonArrays`), an absent or
`undefined` value receives the implicit default `[]` that mongoose gives
every array path, and `null` is stored as `null`. -/
def storedArrayValue : JsInput → JsInput
  | .str s => .arr [s]
  | .undef => .arr []
  | v => v

/-- Validation of one `Array` path carrying `required` and the min-items
custom validator, under mongoose's per-path semantics (the same used for the
email path): the `required` validator is run first and for array paths fails
exactly on `null`/`undefined` stored values ("Agenda is required" /
"Tags are required" ↦ `MissingField field`); only the first failing
validator of a path is reported, and custom validators are skipped for
absent values, so the min-items validator ("... must contain at least one
item" ↦ `EmptyCollection field`) only decides stored arrays.  After
`storedArrayValue` the catch-all branch is reached exactly by `null`. -/
def validateArrayPath (field : String) (v : JsInput) : Option ValidationError :=
  match storedArrayValue v with
  | .arr items =>
    if minItemsValidator (.arr items) then none
    else some (.EmptyCollection field)
  | _ => some (.MissingField field)

/-- Collection stage of Event validation: mongoose validates every path and
aggregates the per-path errors, so both fields are checked independently. -/
def eventCollectionErrors (agenda tags : JsInput) : List ValidationError :=
  (validateArrayPath "agenda" agenda).toList ++
  (validateArrayPath "tags" tags).toList

/-- C6 counterexample: through the full pipeline an explicit `null` agenda
fails the required check with `MissingField "agenda"` ("Agenda is
required"), not `EmptyCollection "agenda"`, and the non-array string
`"not an array"` is cast to a singleton array and passes with no error at
all — even though the bare validator function rejects both values when
called directly as the tests do.  This refutes the claimed "fails with
EmptyCollection(field) iff empty, null, or not a sequence". -/
theorem C6_counterexample :
    validateArrayPath "agenda" .nullv = some (.MissingField "agenda") ∧
    validateArrayPath "agenda" .nullv ≠ some (.EmptyCollection "agenda") ∧
    validateArrayPath "agenda" (.str "not an array") = none ∧
    minItemsValidator .nullv = false ∧
    minItemsValidator (.str "not an array") = false := by
  refine ⟨rfl, by decide, rfl, rfl, rfl⟩

/-- C6 amended: for each field in {agenda, tags}, a non-array scalar is cast
to a singleton array and passes the collection check, an absent or
`undefined` value receives the implicit default `[]`, and `prepare` fails
with `EmptyCollection field` iff the stored value is the empty array (given
explicitly or by default); an explicit `null` fails the required check with
`MissingField field` instead; singleton arrays (`agenda = ["a"]`,
`tags = ["t"]`) and longer arrays pass with no error for that field. -/
theorem C6_amended_collections :
    (∀ (field : String) (v : JsInput),
      validateArrayPath field v = some (.EmptyCollection field) ↔
        (v = .arr [] ∨ v = .undef)) ∧
    (∀ (field : String) (v : JsInput),
      validateArrayPath field v = some (.MissingField field) ↔ v = .nullv) ∧
    (∀ agenda tags : JsInput,
      (ValidationError.EmptyCollection "agenda" ∈
          eventCollectionErrors agenda tags ↔
        (agenda = .arr [] ∨ agenda = .undef)) ∧
      (ValidationError.EmptyCollection "tags" ∈
          eventCollectionErrors agenda tags ↔
        (tags = .arr [] ∨ tags = .undef))) ∧
    validateArrayPath "agenda" (.arr ["a"]) = none ∧
    validateArrayPath "tags" (.arr ["t"]) = none ∧
    eventCollectionErrors (.arr ["a"]) (.arr ["t"]) = [] := by
  have h1 : ∀ (field : String) (v : JsInput),
      validateArrayPath field v = some (.EmptyCollection field) ↔
        (v = .arr [] ∨ v = .undef) := by
    intro field v
    cases v with
    | arr items =>
      cases items <;>
        simp [validateArrayPath, storedArrayValue, minItemsValidator]
    | str s => simp [validateArrayPath, storedArrayValue, minItemsValidator]
    | nullv => simp [validateArrayPath, storedArrayValue]
    | undef => simp [validateArrayPath, storedArrayValue, minItemsValidator]
  have h2 : ∀ (field : String) (v : JsInput),
      validateArrayPath field v = some (.MissingField field) ↔ v = .nullv := by
    intro field v
    cases v with
    | arr items =>
      cases items <;>
        simp [validateArrayPath, storedArrayValue, minItemsValidator]
    | str s => simp [validateArrayPath, storedArrayValue, minItemsValidator]
    | nullv => simp [validateArrayPath, storedArrayValue]
    | undef => simp [validateArrayPath, storedArrayValue, minItemsValidator]
  have hcross : ∀ v : JsInput,
      ¬ validateArrayPath "tags" v = some (.EmptyCollection "agenda") ∧
      ¬ validateArrayPath "agenda" v = some (.EmptyCollection "tags") := by
    intro v
    cases v with
    | arr items =>
      cases items <;>
        simp [validateArrayPath, storedArrayValue, minItemsValidator]
    | str s => simp [validateArrayPath, storedArrayValue, minItemsValidator]
    | nullv => simp [validateArrayPath, storedArrayValue]
    | undef => simp [validateArrayPath, storedArrayValue, minItemsValidator]
  refine ⟨h1, h2, ?_, rfl, rfl, rfl⟩
  intro agenda tags
  have hmem : ∀ e : ValidationError,
      e ∈ eventCollectionErrors agenda tags ↔
        (validateArrayPath "agenda" agenda = some e ∨
         validateArrayPath "tags" tags = some e) := by
    intro e
    simp [eventCollectionErrors, Option.mem_toList, Option.mem_def]
  constructor
  · rw [hmem]
    constructor
    · rintro (h | h)
      · exact (h1 "agenda" agenda).mp h
      · exact absurd h (hcross tags).1
    · intro h
      exact Or.inl ((h1 "agenda" agenda).mpr h)
  · rw [hmem]
    constructor
    · rintro (h | h)
      · exact absurd h (hcross agenda).2
      · exact (h1 "tags" tags).mp h
    · intro h
      exact Or.inr ((h1 "tags" tags).mpr h)

/-- Modelled from the spec: the slug-uniqueness step of the Event pre-save
hook is not under src/ (only the Event model's tests are).  Spec §3 and §4.1
say a derived slug colliding with an existing record gets a disambiguating
suffix `-<token>` with the token derived from the current time, and the test
"should append timestamp for duplicate slugs" (event.model.test.ts lines
307–318) pins the shape `baseSlug + "-" + Date.now()`.  `store` is the set
of already-persisted slugs and `now` the value of `Date.now()`. -/
def deriveUniqueSlug (store : List String) (title : String) (now : Nat) :
    String :=
  let base := slugify title
  if store.contains base then base ++ "-" ++ toString now else base

/-- Persisting two Events in order: the first against an empty store, the
second against a store holding the first record's slug. -/
def persistTwoSlugs (t1 t2 : String) (now1 now2 : Nat) : String × String :=
  let s1 := deriveUniqueSlug [] t1 now1
  (s1, deriveUniqueSlug [s1] t2 now2)

/-- C2: when two Events whose titles derive the same base slug are persisted
in order, the second record's slug is the first's with the time-derived
suffix `-<token>` appended, hence distinct from the first's and
non-empty. -/
theorem C2_slug_disambiguation (t1 t2 : String) (now1 now2 : Nat)
    (h : slugify t1 = slugify t2) :
    (persistTwoSlugs t1 t2 now1 now2).2 =
      (persistTwoSlugs t1 t2 now1 now2).1 ++ "-" ++ toString now2 ∧
    (persistTwoSlugs t1 t2 now1 now2).2 ≠ (persistTwoSlugs t1 t2 now1 now2).1 ∧
    (persistTwoSlugs t1 t2 now1 now2).2 ≠ "" := by
  have hs : (persistTwoSlugs t1 t2 now1 now2).2 =
      slugify t1 ++ "-" ++ toString now2 ∧
      (persistTwoSlugs t1 t2 now1 now2).1 = slugify t1 := by
    unfold persistTwoSlugs deriveUniqueSlug
    simp [← h, List.contains]
  refine ⟨hs.1.trans (by rw [hs.2]), ?_, ?_⟩
  · rw [hs.1, hs.2]
    intro he
    have hl := congrArg String.length he
    simp [String.length_append] at hl
    have hone : ("-" : String).length = 1 := rfl
    omega
  · rw [hs.1]
    intro he
    have hl := congrArg String.length he
    simp [String.length_append] at hl
    exact absurd hl.1.2 (by decide)

/-- Witness for C2: the two titles `"Test Event"` and `"Test   Event!!!"`
derive the same base slug `"test-event"`, and persisting both at
`Date.now() = 1234567890` gives the second the distinct slug
`"test-event-1234567890"`, matching the repository's duplicate-slug test. -/
theorem C2_slug_disambiguation_witness :
    slugify "Test Event" = slugify "Test   Event!!!" ∧
    (persistTwoSlugs "Test Event" "Test   Event!!!" 0 1234567890).2 ≠
      (persistTwoSlugs "Test Event" "Test   Event!!!" 0 1234567890).1 ∧
    (persistTwoSlugs "Test Event" "Test   Event!!!" 0 1234567890).2 =
      "test-event-1234567890" :=
  ⟨by decide,
   (C2_slug_disambiguation "Test Event" "Test   Event!!!" 0 1234567890
     (by decide)).2.1,
   by decide⟩

/-- Cached connection handle of the mongodb module (part_000 lines 13–31):
`conn` holds the established connection and `promise` the in-flight
connection attempt, if any; natural numbers stand in for mongoose instances
and attempt identities. -/
structure MongooseCache where
  conn : Option Nat
  promise : Option Nat
deriving DecidableEq, Repr

/-- Module-load guard of the mongodb module (part_000 lines 4–10):
`const MONGODB_URI = process.env.MONGODB_URI; if (!MONGODB_URI) throw ...`.
`none` models an undefined environment variable; the empty string is also
falsy in JavaScript.  On success the module exposes `connectDB` over the
freshly initialized cache with `conn: null, promise: null`, so no connection
has been attempted at load time and `connectDB` is unreachable in the error
state. -/
def mongodbModuleInit (uri : Option String) : Except String MongooseCache :=
  match uri with
  | none =>
    .error "Please define the MONGODB_URI environment variable inside .env.local"
  | some u =>
    if u = "" then
      .error "Please define the MONGODB_URI environment variable inside .env.local"
    else
      .ok { conn := none, promise := none }

/-- C9: loading the connection module fails with the message about
MONGODB_URI exactly when the variable is undefined or the empty string, and
any successful load yields the initial cache with no connection and no
in-flight attempt — no connection is attempted at load time. -/
theorem C9_uri_guard :
    ∀ uri : Option String,
      (mongodbModuleInit uri =
          .error "Please define the MONGODB_URI environment variable inside .env.local" ↔
        (uri = none ∨ uri = some "")) ∧
      (∀ cache, mongodbModuleInit uri = .ok cache →
        cache = { conn := none, promise := none }) := by
  intro uri
  cases uri with
  | none => simp [mongodbModuleInit]
  | some u =>
    by_cases h : u = "" <;> simp [mongodbModuleInit, h]

/-- Witness for C9: loading with an undefined MONGODB_URI throws the
documented message, and loading with the test URI succeeds with the empty
cache. -/
theorem C9_uri_guard_witness :
    mongodbModuleInit none =
      .error "Please define the MONGODB_URI environment variable inside .env.local" ∧
    ({ conn := none, promise := none } : MongooseCache) =
      { conn := none, promise := none } :=
  ⟨(C9_uri_guard none).1.mpr (Or.inl rfl),
   (C9_uri_guard (some "mongodb://localhost:27017/test-db")).2
     { conn := none, promise := none } rfl⟩

/-- Synchronous phase of `connectDB` (part_000 lines 38–54): a cached
connection is returned at once; otherwise, when no attempt is in flight, a
fresh attempt (identity `fresh`) is stored in `promise`.  The result is the
state after this phase, the attempt the call awaits (`none` when the cached
connection is returned directly), and whether this call started a new
attempt. -/
def connectDBCall (s : MongooseCache) (fresh : Nat) :
    MongooseCache × Option Nat × Bool :=
  match s.conn with
  | some _ => (s, none, false)
  | none =>
    match s.promise with
    | some p => (s, some p, false)
    | none => ({ conn := none, promise := some fresh }, some fresh, true)

/-- Outcome of awaiting the in-flight connection attempt. -/
inductive ConnOutcome where
  | success (c : Nat)
  | failure
deriving DecidableEq, Repr

/-- Completion of `connectDB` (part_000 lines 56–65): on success the awaited
result is cached in `conn`; on failure `promise` is reset to null so the
next call retries, and the error propagates to the caller. -/
def settleAwait (s : MongooseCache) (o : ConnOutcome) : MongooseCache :=
  match o with
  | .success c => { s with conn := some c }
  | .failure => { s with promise := none }

/-- C7: the connection manager's single-shared-handle invariant.  Once a
connection is cached, every later call returns the same state and starts no
new attempt; while an attempt is in flight, a concurrent call awaits exactly
that attempt without starting another; and after a failed attempt the cached
promise is cleared, so the next call starts a fresh attempt instead of
returning the cached failure. -/
theorem C7_connection_caching :
    (∀ (s : MongooseCache) (c fresh : Nat), s.conn = some c →
      connectDBCall s fresh = (s, none, false)) ∧
    (∀ (s : MongooseCache) (p fresh : Nat), s.conn = none →
      s.promise = some p →
      connectDBCall s fresh = (s, some p, false)) ∧
    (∀ (s : MongooseCache) (fresh : Nat), s.conn = none →
      (settleAwait s .failure).promise = none ∧
      connectDBCall (settleAwait s .failure) fresh =
        ({ conn := none, promise := some fresh }, some fresh, true)) := by
  refine ⟨?_, ?_, ?_⟩
  · intro s c fresh h
    simp [connectDBCall, h]
  · intro s p fresh hc hp
    simp [connectDBCall, hc, hp]
  · intro s fresh hc
    cases s with
    | mk conn promise =>
      simp at hc
      subst hc
      simp [settleAwait, connectDBCall]

/-- Witness for C7: with a cached connection the call is a no-op returning
the cache; with an attempt in flight the call awaits attempt 4; after a
failure the next call starts the fresh attempt 9. -/
theorem C7_connection_caching_witness :
    connectDBCall { conn := some 1, promise := some 0 } 9 =
      ({ conn := some 1, promise := some 0 }, none, false) ∧
    connectDBCall { conn := none, promise := some 4 } 9 =
      ({ conn := none, promise := some 4 }, some 4, false) ∧
    connectDBCall (settleAwait { conn := none, promise := some 4 } .failure) 9 =
      ({ conn := none, promise := some 9 }, some 9, true) :=
  ⟨C7_connection_caching.1 { conn := some 1, promise := some 0 } 1 9 rfl,
   C7_connection_caching.2.1 { conn := none, promise := some 4 } 4 9 rfl rfl,
   (C7_connection_caching.2.2 { conn := none, promise := some 4 } 9 rfl).2⟩
